import Mathlib

/-!
Verification of the sticker-detection pipeline of `crop_image.py`.

The development shallowly embeds the pure geometric/algorithmic core of the
program: the crop-geometry planner and guideline geometry, the candidate
filter `is_rubik_square` (area band and `np.allclose` closure check), the
candidate selector (stable descending sort by area, first nine), and the
grid labeler `correct_labels` (nine lattice sample points tested against
each contour with OpenCV's integer point-in-polygon routine).

Machine integers are modelled as `ℕ`/`ℤ` (Python integers are unbounded, and
all quantities here are small and non-negative); the real-valued area-band
arithmetic (Python float division) is modelled exactly over `ℚ`, which is
faithful at every value these claims touch.
-/

namespace CropImage

/-- A 2-D point with integer pixel coordinates, as stored in an OpenCV contour. -/
abbrev Point : Type := ℤ × ℤ

/-- A contour: the ordered list of boundary points returned by `cv2.findContours`. -/
abbrev Contour : Type := List Point

/-! ### Geometry planner

From `identify_stickers` (src/crop_image.py, lines 153–175): the dimensions
used to crop the raw image, computed from the image height and width. -/

/-- The four crop-geometry values computed by `identify_stickers`:
`border_top`, `border_side`, `true_center_width` (= 4·smaller_border, the
spec's `inner_scale`) and `center_width` (= 6·smaller_border, the spec's
`outer_scale`). -/
structure CropPlan where
  border_top : ℕ
  border_side : ℕ
  true_center_width : ℕ
  center_width : ℕ
deriving DecidableEq, Repr

/-- The crop geometry of `identify_stickers` (lines 153–171).
Python's `//` on non-negative integers is `ℕ` division.  The subtraction
`larger_side//2 - 3*border` is exact (never negative): see
`plan_sub_exact` below, so `ℕ` truncated subtraction agrees with Python. -/
def plan (imgheight imgwidth : ℕ) : CropPlan :=
  if imgwidth ≥ imgheight then
    -- landscape branch: smaller_side = imgheight
    let border_top := imgheight / 8
    let border_side := imgwidth / 2 - 3 * border_top
    { border_top := border_top, border_side := border_side,
      true_center_width := 4 * border_top, center_width := 6 * border_top }
  else
    -- portrait branch: smaller_side = imgwidth
    let border_side := imgwidth / 8
    let border_top := imgheight / 2 - 3 * border_side
    { border_top := border_top, border_side := border_side,
      true_center_width := 4 * border_side, center_width := 6 * border_side }

/-- The subtraction inside `plan` never truncates: `3 * (smaller/8) ≤ larger/2`
whenever `smaller ≤ larger`, so the `ℕ` model agrees with Python's signed
integers. -/
theorem plan_sub_exact {smaller larger : ℕ} (h : smaller ≤ larger) :
    3 * (smaller / 8) ≤ larger / 2 := by
  omega

/-- Length of the Python slice `a[start:stop]` of a 1-D axis of size `n`,
for non-negative `start ≤ stop` (numpy clamps out-of-range bounds). -/
def sliceLen (n start stop : ℕ) : ℕ := min stop n - min start n

/-- The shape `(rows, cols)` of
`image[border_top:border_top+center_width, border_side:border_side+center_width]`
(line 175). -/
def cropShape (imgheight imgwidth : ℕ) : ℕ × ℕ :=
  let p := plan imgheight imgwidth
  (sliceLen imgheight p.border_top (p.border_top + p.center_width),
   sliceLen imgwidth p.border_side (p.border_side + p.center_width))

/-! ### Guideline geometry

From `guidelines` (src/crop_image.py, lines 26–64): the border/width values
used to draw the overlay, computed independently of `identify_stickers`. -/

/-- The `(border_top, border_side, center_width)` triple computed by
`guidelines` in its two aspect-ratio branches (lines 26–64). -/
def guidelinesGeometry (imgheight imgwidth : ℕ) : ℕ × ℕ × ℕ :=
  if imgwidth ≥ imgheight then
    let border_top := imgheight / 8
    let border_side := imgwidth / 2 - 3 * border_top
    (border_top, border_side, 6 * border_top)
  else
    let border_side := imgwidth / 8
    let border_top := imgheight / 2 - 3 * border_side
    (border_top, border_side, 6 * border_side)

/-! ### Candidate filter

From `is_rubik_square` (src/crop_image.py, lines 116–132) and the library
primitives it calls: `cv2.contourArea` (Green's-formula area, absolute
value, exact on integer points) and `np.allclose(a, b, 30, 30)` (the third
and fourth positional arguments of `np.allclose` are `rtol` and `atol`, so
the elementwise test is `|a - b| ≤ atol + rtol*|b| = 30 + 30*|b|`). -/

/-- The cyclic shoelace sum `Σ (xᵢ·yᵢ₊₁ − xᵢ₊₁·yᵢ)` over the edges of the
contour, the final edge closing from the last point back to `first`. -/
def shoelaceFrom (first : Point) : List Point → ℤ
  | [] => 0
  | [p] => p.1 * first.2 - first.1 * p.2
  | p :: q :: rest => (p.1 * q.2 - q.1 * p.2) + shoelaceFrom first (q :: rest)

/-- `cv2.contourArea`: half the absolute shoelace sum of the contour
(angle orientation discarded).  Exact over `ℚ` for integer points. -/
def contourArea (contour : Contour) : ℚ :=
  match contour with
  | [] => 0
  | p :: rest => ((shoelaceFrom p (p :: rest)).natAbs : ℚ) / 2

/-- One axis of `np.allclose(a, b, 30, 30)`: `|a - b| ≤ 30 + 30*|b|`
(`rtol = atol = 30`; the relative part scales with the *second* argument). -/
def closePoint (a b : ℤ) : Bool := decide (|a - b| ≤ 30 + 30 * |b|)

/-- `np.allclose(contour[0], contour[-1], 30, 30)`: both coordinates of the
first point are close (in the `np.allclose` sense) to the last point.
A contour needs a first and last point; `cv2` contours are never empty. -/
def allcloseFirstLast (contour : Contour) : Bool :=
  match contour.head?, contour.getLast? with
  | some a, some b => closePoint a.1 b.1 && closePoint a.2 b.2
  | _, _ => false

/-- The area acceptance band of line 128:
`(center_width/3 - center_width/9)^2 ≤ area ≤ (center_width/3 + center_width/9)^2`,
with Python float division modelled exactly over `ℚ`. -/
def rubikAreaBand (area : ℚ) (center_width : ℕ) : Bool :=
  decide (((center_width : ℚ) / 3 - (center_width : ℚ) / 9) ^ 2 ≤ area ∧
    area ≤ ((center_width : ℚ) / 3 + (center_width : ℚ) / 9) ^ 2)

/-- `is_rubik_square` (lines 116–132): if the contour area is within the
band, return the closure check; otherwise return `False`. -/
def is_rubik_square (contour : Contour) (center_width : ℕ) : Bool :=
  if rubikAreaBand (contourArea contour) center_width then
    allcloseFirstLast contour
  else
    false

/-! ### Candidate selector

From `identify_stickers` (src/crop_image.py, lines 182–191): filter the
extracted contours through `is_rubik_square`, sort descending by
`cv2.contourArea` with Python's `sorted` (a stable sort; `reverse=True`
reverses the comparison, not the tie order), keep the first nine. -/

/-- The `closed_contours` list (lines 182–186): the contours accepted by
`is_rubik_square`, in discovery order. -/
def closed_contours (contours : List Contour) (true_center_width : ℕ) : List Contour :=
  contours.filter (fun c => is_rubik_square c true_center_width)

/-- `sorted(closed_contours, key=cv2.contourArea, reverse=True)` (line 188):
Python's `sorted` is a stable sort; with `reverse=True` an element precedes
another iff its key is larger, ties keeping input order — exactly
`mergeSort` with the boolean relation `contourArea b ≤ contourArea a`. -/
def sorted_contours (contours : List Contour) (true_center_width : ℕ) : List Contour :=
  (closed_contours contours true_center_width).mergeSort
    (fun a b => decide (contourArea b ≤ contourArea a))

/-- `sticker_contours = sorted_contours[:9]` (line 191). -/
def sticker_contours (contours : List Contour) (true_center_width : ℕ) : List Contour :=
  (sorted_contours contours true_center_width).take 9

/-! ### Point-in-polygon test

`cv2.pointPolygonTest(contour, point, False)` on an integer contour and an
integer point takes OpenCV's exact integer branch (modules/imgproc/src/
geometry.cpp): a crossing-number walk over the edges that returns `0` as
soon as the point is found to lie on an edge, and otherwise `+1`/`-1` by
crossing parity. -/

/-- The edge loop of OpenCV's integer `pointPolygonTest`.  `v0` is the
previous vertex (initially the last point of the contour), `pts` the
remaining vertices, `counter` the crossing count.  `none` encodes the
early `return 0` (point on the boundary). -/
def pptLoop (ip : Point) (v0 : Point) (pts : List Point) (counter : ℕ) : Option ℕ :=
  match pts with
  | [] => some counter
  | v :: rest =>
    if (v0.2 ≤ ip.2 ∧ v.2 ≤ ip.2) ∨ (ip.2 < v0.2 ∧ ip.2 < v.2) ∨
        (v0.1 < ip.1 ∧ v.1 < ip.1) then
      -- edge cannot produce a crossing; detect the point sitting on a
      -- horizontal edge or coinciding with a vertex
      if ip.2 = v.2 ∧ (ip.1 = v.1 ∨ (ip.2 = v0.2 ∧
          ((v0.1 ≤ ip.1 ∧ ip.1 ≤ v.1) ∨ (v.1 ≤ ip.1 ∧ ip.1 ≤ v0.1)))) then
        none
      else
        pptLoop ip v rest counter
    else
      -- the ray from the point crosses the edge's y-span strictly
      let dist := (ip.2 - v0.2) * (v.1 - v0.1) - (ip.1 - v0.1) * (v.2 - v0.2)
      if dist = 0 then
        none
      else
        let signedDist := if v.2 < v0.2 then -dist else dist
        pptLoop ip v rest (counter + if 0 < signedDist then 1 else 0)

/-- `cv2.pointPolygonTest(contour, ip, False)`: `+1` strictly inside, `-1`
strictly outside, `0` on an edge.  (`cv2` asserts on an empty contour;
the `-1` default for `[]` is never reached by the program.) -/
def pointPolygonTest (contour : Contour) (ip : Point) : ℤ :=
  match contour.getLast? with
  | none => -1
  | some vlast =>
    match pptLoop ip vlast contour 0 with
    | none => 0
    | some counter => if counter % 2 = 0 then -1 else 1

/-! ### Grid labeler

From `correct_labels` (src/crop_image.py, lines 195–228): build the nine
lattice sample points over the crop, then for each contour (outer loop)
and each point (inner loop) record `(point index, contour index)` whenever
the point lies strictly inside the contour. -/

/-- The `point_tests` list (lines 215–222): for `y_coord_ind` (row) and
`x_coord_ind` (column) in `range(3)`, the point
`(standard_length//4*(x+1), standard_length//4*(y+1))`, rows outer. -/
def point_tests (standard_length : ℕ) : List Point :=
  (List.range 3).flatMap (fun y_coord_ind =>
    (List.range 3).map (fun x_coord_ind =>
      (((standard_length / 4 * (x_coord_ind + 1) : ℕ) : ℤ),
       ((standard_length / 4 * (y_coord_ind + 1) : ℕ) : ℤ))))

/-- `correct_labels` (lines 214–228, minus the display-only block): enumerate
the contours (outer) and the nine sample points (inner), appending
`(ptindex, cntindex)` whenever `cv2.pointPolygonTest(contour, point, False) > 0`.
`standard_length = len(image_cropped)` is the crop's side length. -/
def correct_labels (standard_length : ℕ) (contours : List Contour) : List (ℕ × ℕ) :=
  contours.enum.flatMap (fun kc =>
    (point_tests standard_length).enum.filterMap (fun gp =>
      if 0 < pointPolygonTest kc.2 gp.2 then some (gp.1, kc.1) else none))

/-- The grid point of grid index `g` (row `r = g / 3`, column `c = g % 3`):
`(side/4*(c+1), side/4*(r+1))`, the formula of `point_tests` re-indexed by
the flat grid index. -/
def gridPoint (side g : ℕ) : Point :=
  (((side / 4 * (g % 3 + 1) : ℕ) : ℤ), ((side / 4 * (g / 3 + 1) : ℕ) : ℤ))

/-! ## Theorems -/

/-- `plan` written as a single conditional between record literals
(the `let`-bindings of the definition zeta-reduce). -/
theorem plan_eq (imgheight imgwidth : ℕ) :
    plan imgheight imgwidth =
      if imgwidth ≥ imgheight then
        { border_top := imgheight / 8,
          border_side := imgwidth / 2 - 3 * (imgheight / 8),
          true_center_width := 4 * (imgheight / 8),
          center_width := 6 * (imgheight / 8) }
      else
        { border_top := imgheight / 2 - 3 * (imgwidth / 8),
          border_side := imgwidth / 8,
          true_center_width := 4 * (imgwidth / 8),
          center_width := 6 * (imgwidth / 8) } := rfl

/-- C6: for an image of height 600 and width 800 (landscape) the geometry
planner yields smaller_border (= top offset) 75, inner_scale 300,
outer_scale 450 and left offset 175; for height 800 and width 600
(portrait) the role swap yields left offset 75 and top offset 175 with the
same scales. -/
theorem C6_geometry_determinism :
    plan 600 800 = { border_top := 75, border_side := 175,
                     true_center_width := 300, center_width := 450 } ∧
    plan 800 600 = { border_top := 175, border_side := 75,
                     true_center_width := 300, center_width := 450 } := by
  exact ⟨by decide, by decide⟩

/-- C7: for every image height `H` and width `W`, the crop plan satisfies
`outer_scale = 6 * (min H W / 8)` and `inner_scale = 4 * (min H W / 8)`;
and whenever `H, W ≥ 8` the crop window lies within the image bounds, so
the cropped image is a square of `outer_scale × outer_scale` pixels. -/
theorem C7_crop_plan_invariant (H W : ℕ) :
    (plan H W).center_width = 6 * (min H W / 8) ∧
    (plan H W).true_center_width = 4 * (min H W / 8) ∧
    (8 ≤ H → 8 ≤ W →
      (plan H W).border_top + (plan H W).center_width ≤ H ∧
      (plan H W).border_side + (plan H W).center_width ≤ W ∧
      cropShape H W = ((plan H W).center_width, (plan H W).center_width)) := by
  unfold cropShape sliceLen
  rw [plan_eq]
  split <;>
    (rename_i h
     dsimp only
     refine ⟨by omega, by omega, fun h8H h8W => ⟨by omega, by omega, ?_⟩⟩
     simp only [Prod.mk.injEq]
     exact ⟨by omega, by omega⟩)

/-- Witness for C7 at the concrete image size 600 × 800. -/
theorem C7_crop_plan_invariant_witness :
    (plan 600 800).border_top + (plan 600 800).center_width ≤ 600 ∧
    (plan 600 800).border_side + (plan 600 800).center_width ≤ 800 ∧
    cropShape 600 800 = ((plan 600 800).center_width, (plan 600 800).center_width) :=
  (C7_crop_plan_invariant 600 800).2.2 (by decide) (by decide)

/-- C4 counterexample: for the 7 × 100 image (shorter side 7 < 8) the core
raises no invalid-input error; it silently computes a zero-sized crop
window (`center_width = 0`, so the numpy slice of line 175 is empty).
The embedded pipeline geometry is a total function — there is no
validation anywhere in `identify_stickers`. -/
theorem C4_counterexample_silent_degenerate_crop :
    (plan 7 100).center_width = 0 ∧ cropShape 7 100 = (0, 0) := by
  exact ⟨by decide, by decide⟩

/-- C4 amended: for every image whose shorter side is smaller than 8
pixels, `identify_stickers` performs no input validation and silently
produces a zero-sized (degenerate) crop: `outer_scale = 0` and the crop
slice is empty. -/
theorem C4_small_image_degenerates (H W : ℕ) (h : min H W < 8) :
    (plan H W).center_width = 0 ∧ cropShape H W = (0, 0) := by
  unfold cropShape sliceLen
  rw [plan_eq]
  split <;>
    (rename_i hb
     dsimp only
     refine ⟨by omega, ?_⟩
     simp only [Prod.mk.injEq]
     exact ⟨by omega, by omega⟩)

/-- Witness for C4's amended theorem at the 7 × 100 image. -/
theorem C4_small_image_degenerates_witness :
    (plan 7 100).center_width = 0 ∧ cropShape 7 100 = (0, 0) :=
  C4_small_image_degenerates 7 100 (by decide)

/-- C9: for every image height and width, the guideline overlay computes
exactly the same `border_top`, `border_side` and `center_width` as the
crop-geometry branch of `identify_stickers`. -/
theorem C9_guidelines_match_crop_geometry (H W : ℕ) :
    guidelinesGeometry H W =
      ((plan H W).border_top, (plan H W).border_side, (plan H W).center_width) := by
  unfold guidelinesGeometry plan
  split <;> rfl

/-- C3 counterexample: this pentagon has area 11550, inside the acceptance
band for `inner_scale = 300`; its first point `(41,10)` and last point
`(10,10)` differ by `(31,0)`, which the claim says must fail the closure
check — yet the filter accepts it, because `np.allclose(a, b, 30, 30)`
passes `rtol = 30` (not only `atol`), so the per-axis tolerance is
`30 + 30*|last|`, which depends on where the points lie. -/
theorem C3_counterexample_relative_tolerance :
    (is_rubik_square [((41:ℤ),(10:ℤ)), (141,10), (141,110), (41,110), (10,10)] 300 = true) ∧
    rubikAreaBand
      (contourArea [((41:ℤ),(10:ℤ)), (141,10), (141,110), (41,110), (10,10)]) 300 = true ∧
    List.head? [((41:ℤ),(10:ℤ)), (141,10), (141,110), (41,110), (10,10)] = some (41, 10) ∧
    List.getLast? [((41:ℤ),(10:ℤ)), (141,10), (141,110), (41,110), (10,10)] = some (10, 10) := by
  refine ⟨?_, ?_, rfl, rfl⟩ <;>
    norm_num [is_rubik_square, rubikAreaBand, contourArea, shoelaceFrom,
      allcloseFirstLast, closePoint]

/-- C3 amended: the closure check is `np.allclose(first, last, 30, 30)`,
whose per-axis tolerance is `30 + 30·|coordinate of the last point|`
(rtol = atol = 30), not an absolute 30-pixel tolerance.  Consequently a
first/last difference of `(29,29)` always passes, while a difference of
`(31,0)` fails exactly when the last point's x-coordinate is `0` — not
regardless of where the points lie. -/
theorem C3_closure_check_tolerance :
    (∀ (p : Contour) (a b : Point), p.head? = some a → p.getLast? = some b →
      (allcloseFirstLast p = true ↔
        |a.1 - b.1| ≤ 30 + 30 * |b.1| ∧ |a.2 - b.2| ≤ 30 + 30 * |b.2|)) ∧
    (∀ (p : Contour) (a b : Point), p.head? = some a → p.getLast? = some b →
      a.1 - b.1 = 29 → a.2 - b.2 = 29 → allcloseFirstLast p = true) ∧
    (∀ (p : Contour) (a b : Point), p.head? = some a → p.getLast? = some b →
      a.1 - b.1 = 31 → a.2 = b.2 → (allcloseFirstLast p = false ↔ b.1 = 0)) := by
  have hiff : ∀ (p : Contour) (a b : Point), p.head? = some a → p.getLast? = some b →
      (allcloseFirstLast p = true ↔
        |a.1 - b.1| ≤ 30 + 30 * |b.1| ∧ |a.2 - b.2| ≤ 30 + 30 * |b.2|) := by
    intro p a b ha hb
    simp [allcloseFirstLast, ha, hb, closePoint]
  refine ⟨hiff, ?_, ?_⟩
  · intro p a b ha hb h1 h2
    rw [hiff p a b ha hb, h1, h2]
    have := abs_nonneg b.1
    have := abs_nonneg b.2
    constructor <;> simp <;> omega
  · intro p a b ha hb h1 h2
    rw [Bool.eq_false_iff, Ne, hiff p a b ha hb, h1, h2, sub_self, abs_zero]
    have hb2 : (0:ℤ) ≤ |b.2| := abs_nonneg _
    have h31 : |(31:ℤ)| = 31 := by norm_num
    rw [h31]
    rcases abs_cases b.1 with ⟨habs, hsign⟩ | ⟨habs, hsign⟩ <;> rw [habs] <;>
      constructor <;> intro h <;> omega

/-- Witness for C3's amended theorem: a two-point contour whose first and
last points differ by `(29,29)` passes the closure check, and one whose
first and last points differ by `(31,0)` with last x-coordinate `0` fails
it. -/
theorem C3_closure_check_tolerance_witness :
    (allcloseFirstLast [((30:ℤ),(30:ℤ)), (1,1)] = true) ∧
    (allcloseFirstLast [((31:ℤ),(5:ℤ)), (0,5)] = false) :=
  ⟨C3_closure_check_tolerance.2.1 [((30:ℤ),(30:ℤ)), (1,1)] (30,30) (1,1)
      rfl rfl (by decide) (by decide),
   (C3_closure_check_tolerance.2.2 [((31:ℤ),(5:ℤ)), (0,5)] (31,5) (0,5)
      rfl rfl (by decide) (by decide)).mpr rfl⟩

/-- C8: for every contour passing the closure check, the filter accepts it
iff its area lies in the inclusive band
`[(inner_scale/3 - inner_scale/9)², (inner_scale/3 + inner_scale/9)²]`
(real-valued division); concretely, for `inner_scale = 300` the 100 × 100
square of area exactly 10000 passes, while areas
`(300/3 - 300/9)² - 1` and `(300/3 + 300/9)² + 1` fall outside the band. -/
theorem C8_area_band :
    (∀ (contour : Contour) (center_width : ℕ),
      allcloseFirstLast contour = true →
      (is_rubik_square contour center_width = true ↔
        ((center_width : ℚ) / 3 - (center_width : ℚ) / 9) ^ 2 ≤ contourArea contour ∧
          contourArea contour ≤ ((center_width : ℚ) / 3 + (center_width : ℚ) / 9) ^ 2)) ∧
    is_rubik_square [((0:ℤ),(0:ℤ)), (100,0), (100,100), (0,100)] 300 = true ∧
    rubikAreaBand (((300:ℚ)/3 - (300:ℚ)/9) ^ 2 - 1) 300 = false ∧
    rubikAreaBand (((300:ℚ)/3 + (300:ℚ)/9) ^ 2 + 1) 300 = false := by
  refine ⟨?_, ?_, ?_, ?_⟩
  · intro contour center_width hclose
    rw [is_rubik_square, rubikAreaBand]
    constructor
    · intro h
      by_cases hband : ((center_width : ℚ) / 3 - (center_width : ℚ) / 9) ^ 2 ≤
            contourArea contour ∧
          contourArea contour ≤ ((center_width : ℚ) / 3 + (center_width : ℚ) / 9) ^ 2
      · exact hband
      · simp [hband] at h
    · intro hband
      simp [hband, hclose]
  · norm_num [is_rubik_square, rubikAreaBand, contourArea, shoelaceFrom,
      allcloseFirstLast, closePoint]
  · norm_num [rubikAreaBand]
  · norm_num [rubikAreaBand]

/-- Witness for C8 at the 100 × 100 square (which passes the closure check)
and `inner_scale = 300`. -/
theorem C8_area_band_witness :
    is_rubik_square [((0:ℤ),(0:ℤ)), (100,0), (100,100), (0,100)] 300 = true ↔
      ((300 : ℚ) / 3 - (300 : ℚ) / 9) ^ 2 ≤
          contourArea [((0:ℤ),(0:ℤ)), (100,0), (100,100), (0,100)] ∧
        contourArea [((0:ℤ),(0:ℤ)), (100,0), (100,100), (0,100)] ≤
          ((300 : ℚ) / 3 + (300 : ℚ) / 9) ^ 2 :=
  C8_area_band.1 [((0:ℤ),(0:ℤ)), (100,0), (100,100), (0,100)] 300 (by decide)

/-- C5: the candidate selector returns exactly the filter-passing contours,
sorted by area in descending order by a stable sort, truncated to the
first nine: the kept list is the 9-prefix of a permutation of the
filter-passing contours that is sorted descending by area and in which
the contours of any fixed area keep their discovery order; in particular,
for the four passing rectangles below with areas `[50, 70, 70, 30]`
(discovered in that order) it returns them ordered `[70₁, 70₂, 50₀, 30₃]`. -/
theorem C5_selector_stable_ranking :
    (∀ (contours : List Contour) (tcw : ℕ),
      sticker_contours contours tcw = (sorted_contours contours tcw).take 9) ∧
    (∀ (contours : List Contour) (tcw : ℕ),
      (sorted_contours contours tcw).Perm (closed_contours contours tcw)) ∧
    (∀ (contours : List Contour) (tcw : ℕ),
      (sorted_contours contours tcw).Pairwise
        (fun a b => contourArea b ≤ contourArea a)) ∧
    (∀ (contours : List Contour) (tcw : ℕ) (a : ℚ),
      List.Sublist
        ((closed_contours contours tcw).filter
          (fun c => decide (contourArea c = a)))
        (sorted_contours contours tcw)) ∧
    sticker_contours
        [[((0:ℤ),(0:ℤ)),(10,0),(10,5),(0,5)], [((0:ℤ),(0:ℤ)),(10,0),(10,7),(0,7)],
         [((0:ℤ),(0:ℤ)),(14,0),(14,5),(0,5)], [((0:ℤ),(0:ℤ)),(10,0),(10,3),(0,3)]] 24 =
      [[((0:ℤ),(0:ℤ)),(10,0),(10,7),(0,7)], [((0:ℤ),(0:ℤ)),(14,0),(14,5),(0,5)],
       [((0:ℤ),(0:ℤ)),(10,0),(10,5),(0,5)], [((0:ℤ),(0:ℤ)),(10,0),(10,3),(0,3)]] := by
  have htrans : ∀ a b c : Contour,
      decide (contourArea b ≤ contourArea a) →
      decide (contourArea c ≤ contourArea b) →
      decide (contourArea c ≤ contourArea a) := by
    intro a b c h1 h2
    simp only [decide_eq_true_eq] at *
    exact le_trans h2 h1
  have htotal : ∀ a b : Contour,
      decide (contourArea b ≤ contourArea a) ||
        decide (contourArea a ≤ contourArea b) := by
    intro a b
    simp only [Bool.or_eq_true, decide_eq_true_eq]
    exact le_total _ _
  refine ⟨fun _ _ => rfl, ?_, ?_, ?_, ?_⟩
  · intro contours tcw
    exact List.mergeSort_perm _ _
  · intro contours tcw
    exact (List.sorted_mergeSort htrans htotal _).imp (fun h => of_decide_eq_true h)
  · intro contours tcw a
    refine List.sublist_mergeSort htrans htotal ?_ (List.filter_sublist _)
    refine List.pairwise_of_forall_mem_list ?_
    intro x hx y hy
    have hxa : contourArea x = a := by simpa using List.of_mem_filter hx
    have hya : contourArea y = a := by simpa using List.of_mem_filter hy
    simp [hxa, hya]
  · norm_num [sticker_contours, sorted_contours, closed_contours, List.mergeSort,
      List.merge, is_rubik_square, rubikAreaBand, contourArea, shoelaceFrom,
      allcloseFirstLast, closePoint, List.filter]

/-- The nine sample points listed by `point_tests`, indexed by the flat
grid index: entry `g` is `gridPoint side g`. -/
theorem point_tests_getElem (side g : ℕ) (h : g < 9) :
    (point_tests side)[g]? = some (gridPoint side g) := by
  interval_cases g <;> rfl

/-- The first components of an enumeration are strictly increasing. -/
theorem pairwise_fst_lt_enumFrom {α : Type} (l : List α) (n : ℕ) :
    (l.enumFrom n).Pairwise (fun a b => a.1 < b.1) := by
  induction l generalizing n with
  | nil => simp
  | cons x xs ih =>
    rw [List.enumFrom_cons]
    refine List.Pairwise.cons ?_ (ih (n + 1))
    intro b hb
    have := List.le_fst_of_mem_enumFrom hb
    omega

/-- C10: for every square crop of side length at least 4, the nine grid
sample points are pairwise distinct and both coordinates of every point
lie strictly between 0 and the side length; the points are a function of
the side length alone (the type of `point_tests` exhibits this). -/
theorem C10_grid_points_distinct_interior (side : ℕ) (h4 : 4 ≤ side) :
    (point_tests side).Pairwise (· ≠ ·) ∧
    ∀ p ∈ point_tests side,
      0 < p.1 ∧ p.1 < (side : ℤ) ∧ 0 < p.2 ∧ p.2 < (side : ℤ) := by
  constructor
  · simp only [point_tests, List.range, List.range.loop, List.flatMap_cons,
      List.map_cons, List.map_nil, List.flatMap_nil, List.append_nil,
      List.cons_append, List.nil_append, List.pairwise_cons, List.mem_cons,
      List.not_mem_nil, ne_eq, Prod.mk.injEq, not_and]
    norm_num
    omega
  · simp only [point_tests, List.range, List.range.loop, List.flatMap_cons,
      List.map_cons, List.map_nil, List.flatMap_nil, List.append_nil,
      List.cons_append, List.nil_append, List.forall_mem_cons, List.not_mem_nil]
    norm_num
    omega

/-- Witness for C10 at side length 40. -/
theorem C10_grid_points_distinct_interior_witness :
    (point_tests 40).Pairwise (· ≠ ·) ∧
    ∀ p ∈ point_tests 40,
      0 < p.1 ∧ p.1 < (40 : ℤ) ∧ 0 < p.2 ∧ p.2 < (40 : ℤ) :=
  C10_grid_points_distinct_interior 40 (by decide)

/-- C1: the grid labeler's result contains the pair `(g, k)` iff the grid
point of index `g` — `(side/4*(c+1), side/4*(r+1))` for its row `r = g/3`
and column `c = g%3`, which is what `gridPoint` denotes — lies strictly
inside contour `k` (`cv2.pointPolygonTest > 0`); a grid point lying
exactly on the contour's boundary (test result `0`) produces no pair, as
the concrete square below shows: grid point 0 of a side-40 crop is
`(10,10)`, a vertex of the square, and the pair `(0,0)` is absent. -/
theorem C1_labeler_membership :
    (∀ (side : ℕ) (contours : List Contour) (g k : ℕ) (contour : Contour),
      contours[k]? = some contour → g < 9 →
      ((g, k) ∈ correct_labels side contours ↔
        0 < pointPolygonTest contour (gridPoint side g))) ∧
    pointPolygonTest [((10:ℤ),(10:ℤ)), (30,10), (30,30), (10,30)] (gridPoint 40 0) = 0 ∧
    (0, 0) ∉ correct_labels 40 [[((10:ℤ),(10:ℤ)), (30,10), (30,30), (10,30)]] := by
  refine ⟨?_, by decide, by decide⟩
  intro side contours g k contour hk hg
  constructor
  · intro hmem
    rw [correct_labels, List.mem_flatMap] at hmem
    obtain ⟨kc, hkc, hmem⟩ := hmem
    rw [List.mem_filterMap] at hmem
    obtain ⟨gp, hgp, heq⟩ := hmem
    split at heq
    · rename_i hpos
      simp only [Option.some.injEq, Prod.mk.injEq] at heq
      obtain ⟨hg1, hk1⟩ := heq
      rw [List.mem_enum_iff_getElem?] at hkc hgp
      rw [hk1, hk] at hkc
      rw [hg1, point_tests_getElem side g hg] at hgp
      injection hkc with hkc
      injection hgp with hgp
      rw [hkc, hgp]
      exact hpos
    · exact absurd heq (by simp)
  · intro hpos
    rw [correct_labels, List.mem_flatMap]
    refine ⟨(k, contour), List.mem_enum_iff_getElem?.mpr hk, ?_⟩
    rw [List.mem_filterMap]
    refine ⟨(g, gridPoint side g),
      List.mem_enum_iff_getElem?.mpr (point_tests_getElem side g hg), ?_⟩
    rw [if_pos hpos]

/-- Witness for C1: grid point 4 (the crop center `(20,20)`) of a side-40
crop, against the single square candidate. -/
theorem C1_labeler_membership_witness :
    (4, 0) ∈ correct_labels 40 [[((10:ℤ),(10:ℤ)), (30,10), (30,30), (10,30)]] ↔
      0 < pointPolygonTest [((10:ℤ),(10:ℤ)), (30,10), (30,30), (10,30)]
            (gridPoint 40 4) :=
  C1_labeler_membership.1 40 [[((10:ℤ),(10:ℤ)), (30,10), (30,30), (10,30)]] 4 0
    [((10:ℤ),(10:ℤ)), (30,10), (30,30), (10,30)] rfl (by decide)

/-- C2 counterexample: two square candidates, the first containing grid
point 1 and the second containing grid point 0.  `correct_labels`
enumerates the *contours* in the outer loop and the grid points in the
inner loop, so the output is `[(1,0), (0,1)]` — not ordered
lexicographically by `(g, k)` as the claim states. -/
theorem C2_counterexample_order :
    correct_labels 40 [[((15:ℤ),(5:ℤ)),(25,5),(25,15),(15,15)],
        [((5:ℤ),(5:ℤ)),(15,5),(15,15),(5,15)]] = [(1,0),(0,1)] ∧
    ¬ List.Pairwise (fun a b : ℕ × ℕ => a.1 < b.1 ∨ (a.1 = b.1 ∧ a.2 < b.2))
        (correct_labels 40 [[((15:ℤ),(5:ℤ)),(25,5),(25,15),(15,15)],
          [((5:ℤ),(5:ℤ)),(15,5),(15,15),(5,15)]]) := by
  exact ⟨by decide, by decide⟩

/-- C2 amended: the pairs appear in nested discovery order with the
*candidate* index `k` as the outer loop and the grid index `g` as the
inner loop, i.e. the output list is ordered lexicographically by
`(k, g)`. -/
theorem C2_labeler_order (side : ℕ) (contours : List Contour) :
    (correct_labels side contours).Pairwise
      (fun a b => a.2 < b.2 ∨ (a.2 = b.2 ∧ a.1 < b.1)) := by
  rw [correct_labels, List.pairwise_flatMap]
  constructor
  · intro kc _
    rw [List.pairwise_filterMap, List.enum_eq_enumFrom]
    refine (pairwise_fst_lt_enumFrom _ 0).imp ?_
    intro gp gp' hlt x hx y hy
    rw [Option.mem_def] at hx hy
    split at hx
    · split at hy
      · injection hx with hx
        injection hy with hy
        rw [← hx, ← hy]
        exact Or.inr ⟨rfl, hlt⟩
      · exact absurd hy (by simp)
    · exact absurd hx (by simp)
  · rw [List.enum_eq_enumFrom]
    refine (pairwise_fst_lt_enumFrom _ 0).imp ?_
    intro kc kc' hlt x hx y hy
    rw [List.mem_filterMap] at hx hy
    obtain ⟨gp, _, hx⟩ := hx
    obtain ⟨gp', _, hy⟩ := hy
    split at hx
    · split at hy
      · injection hx with hx
        injection hy with hy
        rw [← hx, ← hy]
        exact Or.inl hlt
      · exact absurd hy (by simp)
    · exact absurd hx (by simp)

end CropImage
